import Mathlib

/-!
# 02-triangles: the quad renderer of `src/02-triangles/main.go`

The program is one entry routine `main` plus two small functions,
`processInput` and `framebufferSizeCallback`.  Everything it does is a call
into the windowing library (glfw) or the graphics library (gl), so the
embedding is a *call log*: every function of the program is translated to a
Lean function that returns the list of library calls it issues, in order,
each tagged with the function of the program that issued it, together with
the state it changes.

What the libraries answer is not decided by the program; it is collected in
an environment `Env` (error results, object handles, status and log-length
values written to out-parameters, the events delivered by each
`glfw.PollEvents`).  Theorems quantify over every environment.

Conventions
* Go `int32` values are integers reduced by `toInt32` (two's complement
  wrap-around); Go `int` is 64 bits wide (`toInt`).
* Go strings are lists of bytes (`List Nat`), the NUL byte is `0`.
* `float32` constants are the rational value of the source literal.
* A panic is a value of `Panic`; deferred calls run before `main` ends.
* Library calls whose result the program does not inspect are taken to
  succeed, and a status or log-length query stores a value in its
  out-parameter.  `strings.Repeat` and `gl.Str` have preconditions the
  program can miss and are modelled with their panics.
* A log readback stores bytes chosen by the driver (`Env.vInfoLog`, ...)
  into the buffer behind the pointer it is given, at most as many as the
  maximum length it is given; the print that follows shows the buffer after
  that store.
* The framebuffer-size callback of glfw carries C `int` values (`CInt`, 32
  bits), which the binding converts to Go `int` before it runs the callback
  registered by the program.
* The render loop consumes one list of events per iteration from
  `Env.frames`; when the list is used up while the window is still open the
  run is reported as `Outcome.running` (its log is a prefix of the real one).
-/

namespace Triangles

/-! ## Machine integers -/

/-- Two's complement reduction of an integer to the range of Go `int32`. -/
def toInt32 (x : Int) : Int := (x + 2147483648) % 4294967296 - 2147483648

/-- Two's complement reduction of an integer to the range of a 64-bit Go `int`. -/
def toInt (x : Int) : Int := (x + 9223372036854775808) % 18446744073709551616 - 9223372036854775808

/-- Reinterpretation of an `int32` bit pattern as `uint32`, which is how the
graphics library reads index data of type `gl.UNSIGNED_INT`. -/
def asUint32 (x : Int) : Int := x % 4294967296

/-- Range of Go `int32`. -/
def isInt32 (x : Int) : Prop := -2147483648 ≤ x ∧ x < 2147483648

/-- A C `int` as glfw passes it to a framebuffer-size callback: an integer
in the 32-bit range. -/
abbrev CInt : Type := { x : Int // isInt32 x }

/-! ## Library vocabulary -/

/-- Key states of glfw (`glfw.Release`, `glfw.Press`, `glfw.Repeat`). -/
inductive Action
  | Release
  | Press
  | Repeat
  deriving DecidableEq, Repr

/-- Keys of glfw the program asks about. -/
inductive Key
  | KeyEscape
  deriving DecidableEq, Repr

/-- Window hints set by `main` (lines 30-33). -/
inductive Hint
  | ContextVersionMajor
  | ContextVersionMinor
  | OpenGLProfile
  | OpenGLForwardCompatible
  deriving DecidableEq, Repr

/-- Values given to window hints. -/
inductive HintValue
  | num (n : Nat)
  | OpenGLCoreProfile
  | True
  deriving DecidableEq, Repr

/-- Symbolic constants of the gl package used by the program. -/
inductive GLenum
  | VERTEX_SHADER
  | FRAGMENT_SHADER
  | COMPILE_STATUS
  | LINK_STATUS
  | INFO_LOG_LENGTH
  | ARRAY_BUFFER
  | ELEMENT_ARRAY_BUFFER
  | STATIC_DRAW
  | FLOAT
  | UNSIGNED_INT
  | TRIANGLES
  deriving DecidableEq, Repr

/-- Value of `gl.FALSE`. -/
def GL_FALSE : Int := 0

/-- Value of `gl.COLOR_BUFFER_BIT` (0x4000). -/
def COLOR_BUFFER_BIT : Nat := 16384

/-- Value of `gl.DEPTH_BUFFER_BIT` (0x0100). -/
def DEPTH_BUFFER_BIT : Nat := 256

/-- Value of `gl.STENCIL_BUFFER_BIT` (0x0400). -/
def STENCIL_BUFFER_BIT : Nat := 1024

/-- The two shader source texts (lines 167-185), referred to by name. -/
inductive Source
  | vertexShaderSrc
  | fragmentShaderSrc
  deriving DecidableEq, Repr

/-- Error values returned by the libraries. -/
structure Error where
  code : Nat
  deriving DecidableEq, Repr

/-- Data handed to `gl.BufferData` through `gl.Ptr`. -/
inductive Data
  | float32s (xs : List ℚ)
  | int32s (xs : List Int)
  deriving DecidableEq

/-- Constants of `main.go`, lines 12-16. -/
def windowWidth : Nat := 800

/-- Height of the window. -/
def windowHeight : Nat := 600

/-- Title of the window. -/
def windowTitle : String := "Learn OpenGL :: Window"

/-- Calls issued by the program, with their arguments. -/
inductive Call
  | glfwInit
  | Terminate
  | WindowHint (hint : Hint) (value : HintValue)
  | CreateWindow (width height : Nat) (title : String)
  | MakeContextCurrent
  | SetFramebufferSizeCallback
  | glInit
  | CreateShader (kind : GLenum)
  | Strs (src : Source)
  | ShaderSource (shader : Nat) (count : Nat) (src : Source)
  | free
  | CompileShader (shader : Nat)
  | GetShaderiv (shader : Nat) (pname : GLenum)
  | GetShaderInfoLog (shader : Nat) (bufSize : Int) (infoLog : List Nat)
  | Printf (format : String) (arg : List Nat)
  | CreateProgram
  | AttachShader (program shader : Nat)
  | LinkProgram (program : Nat)
  | GetProgramiv (program : Nat) (pname : GLenum)
  | GetProgramInfoLog (program : Nat) (bufSize : Int) (infoLog : List Nat)
  | DeleteShader (shader : Nat)
  | GenVertexArrays (n : Nat)
  | BindVertexArray (array : Nat)
  | GenBuffers (n : Nat)
  | BindBuffer (target : GLenum) (buffer : Nat)
  | BufferData (target : GLenum) (size : Int) (data : Data) (usage : GLenum)
  | VertexAttribPointer (index : Nat) (size : Int) (xtype : GLenum) (normalized : Bool)
      (stride : Int) (offset : Int)
  | EnableVertexAttribArray (index : Nat)
  | DeleteVertexArrays (n : Nat) (array : Nat)
  | DeleteBuffers (n : Nat) (buffer : Nat)
  | ShouldClose
  | processInput
  | GetKey (key : Key)
  | SetShouldClose (value : Bool)
  | ClearColor (red green blue alpha : ℚ)
  | Clear (mask : Nat)
  | UseProgram (program : Nat)
  | DrawElements (mode : GLenum) (count : Int) (xtype : GLenum) (offset : Int)
  | SwapBuffers
  | PollEvents
  | Viewport (x y width height : Int)
  deriving DecidableEq

/-- The function of the program whose body issues a call. -/
inductive Origin
  | inMain
  | inProcessInput
  | inFramebufferSizeCallback
  deriving DecidableEq, Repr

/-- One line of the call log. -/
structure Entry where
  origin : Origin
  call : Call
  deriving DecidableEq

/-- A call issued by the body of `main`. -/
def byMain (c : Call) : Entry := ⟨Origin.inMain, c⟩

/-- The calls of a log that the body of `main` issues itself. -/
def mainLevel (log : List Entry) : List Call :=
  (log.filter (fun e => decide (e.origin = Origin.inMain))).map Entry.call

/-! ## Window state and events -/

/-- The part of a glfw window the program reads or writes: the close-request
flag (`ShouldClose` / `SetShouldClose`) and the cached state of the escape key
(`GetKey(glfw.KeyEscape)`). -/
structure Window where
  shouldClose : Bool
  keyEscape : Action
  deriving DecidableEq, Repr

/-- Events the windowing system delivers inside `glfw.PollEvents`. -/
inductive Event
  | framebufferSize (width height : CInt)
  | closeRequested
  | escapeKey (action : Action)
  deriving DecidableEq

/-- What the libraries answer during one run. -/
structure Env where
  initErr : Option Error
  createWindowErr : Option Error
  window : Window
  glInitErr : Option Error
  vShader : Nat
  fShader : Nat
  program : Nat
  vao : Nat
  vbo : Nat
  ebo : Nat
  vStatus : Int
  vLogLength : Int
  fStatus : Int
  fLogLength : Int
  lStatus : Int
  lLogLength : Int
  vInfoLog : List Nat
  fInfoLog : List Nat
  lInfoLog : List Nat
  frames : List (List Event)

/-! ## Panics and results -/

/-- Ways `main` can panic. -/
inductive Panic
  | error (e : Error)
  | negativeRepeatCount
  | missingNullTerminator
  deriving DecidableEq, Repr

/-- How a run of `main` ends. -/
inductive Outcome
  | returned
  | panicked (p : Panic)
  | running
  deriving DecidableEq, Repr

/-- A straight-line piece of `main`: the calls it issued and the panic that
stopped it, if any. -/
structure Block where
  log : List Entry
  panic : Option Panic
  deriving DecidableEq

/-- Sequential composition: the second block runs only if the first did not
panic. -/
def Block.andThen (a b : Block) : Block :=
  match a.panic with
  | some p => ⟨a.log, some p⟩
  | none => ⟨a.log ++ b.log, b.panic⟩

/-- Result of a whole run. -/
structure Run where
  log : List Entry
  outcome : Outcome
  deriving DecidableEq

/-! ## Library functions with a precondition -/

/-- Go `strings.Repeat(s, count)`: panics on a negative count, otherwise
`count` copies of `s`. -/
def stringsRepeat (s : List Nat) (count : Int) : Except Panic (List Nat) :=
  if count < 0 then Except.error Panic.negativeRepeatCount
  else Except.ok (List.replicate count.toNat s).flatten

/-- Go-gl `gl.Str(str)`: panics unless `str` ends in a NUL byte, otherwise
gives the address of its bytes (here: the bytes). -/
def glStr (str : List Nat) : Except Panic (List Nat) :=
  if str.getLast? = some 0 then Except.ok str
  else Except.error Panic.missingNullTerminator

/-! ## The program -/

/-- Lines 99-104: the vertex data. -/
def vertices : List ℚ :=
  [ 0.5, 0.5, 0.0,    -- top right
    0.5, -0.5, 0.0,   -- bottom right
    -0.5, -0.5, 0.0,  -- bottom left
    -0.5, 0.5, 0.0 ]  -- top left

/-- Lines 106-109: the index data (`[]int32`). -/
def indices : List Int :=
  [ 0, 1, 3,   -- first triangle
    1, 2, 3 ]  -- second triangle

/-- Lines 196-200, `processInput`: if the escape key is reported pressed, set
the close-request flag.  Gives the window state afterwards and the calls
issued. -/
def processInput (w : Window) : Window × List Entry :=
  if w.keyEscape = Action.Press then
    (⟨true, w.keyEscape⟩,
      [⟨Origin.inProcessInput, Call.GetKey Key.KeyEscape⟩,
       ⟨Origin.inProcessInput, Call.SetShouldClose true⟩])
  else
    (w, [⟨Origin.inProcessInput, Call.GetKey Key.KeyEscape⟩])

/-- Lines 188-190, `framebufferSizeCallback`: one `gl.Viewport` call whose
size arguments are the Go `int` parameters converted to `int32`. -/
def framebufferSizeCallback (width height : Int) : List Entry :=
  [⟨Origin.inFramebufferSizeCallback, Call.Viewport 0 0 (toInt32 width) (toInt32 height)⟩]

/-- Delivery of one event by the windowing library: a framebuffer-size event
runs the callback registered at line 42 on the C `int` sizes converted to Go
`int`, a close request sets the close-request flag, a key event updates the
cached key state. -/
def deliver (w : Window) : Event → Window × List Entry
  | Event.framebufferSize width height =>
    (w, framebufferSizeCallback (toInt width.val) (toInt height.val))
  | Event.closeRequested => (⟨true, w.keyEscape⟩, [])
  | Event.escapeKey action => (⟨w.shouldClose, action⟩, [])

/-- Behaviour of `glfw.PollEvents()` when the pending events are `events`:
they are delivered in order. -/
def pollEvents : Window → List Event → Window × List Entry
  | w, [] => (w, [])
  | w, e :: rest =>
    let r := deliver w e
    let s := pollEvents r.1 rest
    (s.1, r.2 ++ s.2)

/-- The three status checks of `main`. -/
inductive Stage
  | vertex
  | fragment
  | link
  deriving DecidableEq, Repr

/-- Format strings of lines 65, 79 and 92. -/
def Stage.message : Stage → String
  | Stage.vertex => "failed to compile vertex shader: %v"
  | Stage.fragment => "failed to compile fragment shader: %v"
  | Stage.link => "failed to link program: %v"

/-- The status and log-length query of a stage: `gl.GetShaderiv` for the two
shader stages, `gl.GetProgramiv` for the link. -/
def Stage.getiv : Stage → Nat → GLenum → Call
  | Stage.vertex, h, p => Call.GetShaderiv h p
  | Stage.fragment, h, p => Call.GetShaderiv h p
  | Stage.link, h, p => Call.GetProgramiv h p

/-- The log readback of a stage: `gl.GetShaderInfoLog` for the two shader
stages, `gl.GetProgramInfoLog` for the link. -/
def Stage.getInfoLog : Stage → Nat → Int → List Nat → Call
  | Stage.vertex, h, n, buf => Call.GetShaderInfoLog h n buf
  | Stage.fragment, h, n, buf => Call.GetShaderInfoLog h n buf
  | Stage.link, h, n, buf => Call.GetProgramInfoLog h n buf

/-- The expression `strings.Repeat("\x00", int(logLength+1))` of lines 63, 77
and 90: the sum is an `int32` sum, the conversion to `int` comes after. -/
def logBuffer (logLength : Int) : Except Panic (List Nat) :=
  stringsRepeat [0] (toInt (toInt32 (logLength + 1)))

/-- Effect of `gl.GetShaderInfoLog` / `gl.GetProgramInfoLog` on the bytes
behind the pointer it is given: of the bytes `written` the driver has for
the log it stores at most `bufSize`, at the start of the buffer; the bytes
after them keep their value. -/
def storeInfoLog (bufSize : Int) (written buf : List Nat) : List Nat :=
  let stored := written.take bufSize.toNat
  stored ++ buf.drop stored.length

/-- The body of a failure branch (lines 62-65, 76-79, 89-92), the same text
three times up to the stage queried: ask for the log length, build the
buffer, read the log back, print it.  `reported` is the value the library
writes to `logLength`, `written` the bytes the driver has for the log.  The
print shows `log` after the readback stored into its bytes. -/
def diagnose (stage : Stage) (handle : Nat) (reported : Int) (written : List Nat) : Block :=
  let logLength := toInt32 reported
  let query := [byMain (stage.getiv handle GLenum.INFO_LOG_LENGTH)]
  match logBuffer logLength with
  | Except.error p => ⟨query, some p⟩
  | Except.ok log =>
    match glStr log with
    | Except.error p => ⟨query, some p⟩
    | Except.ok ptr =>
      ⟨query ++ [byMain (stage.getInfoLog handle logLength ptr),
                 byMain (Call.Printf stage.message (storeInfoLog logLength written log))],
        none⟩

/-- A status check (lines 60-66, 74-80, 87-93): query the status, and run the
failure branch when it equals `gl.FALSE`.  `reportedStatus` is the value the
library writes to `status`. -/
def checkStatus (stage : Stage) (handle : Nat) (pname : GLenum)
    (reportedStatus reportedLength : Int) (written : List Nat) : Block :=
  let status := toInt32 reportedStatus
  Block.andThen ⟨[byMain (stage.getiv handle pname)], none⟩
    (if status = GL_FALSE then diagnose stage handle reportedLength written else ⟨[], none⟩)

/-- Lines 54-58 and 68-72: create a shader stage, give it its source, compile. -/
def compileStage (kind : GLenum) (src : Source) (shader : Nat) : Block :=
  ⟨[byMain (Call.CreateShader kind), byMain (Call.Strs src),
    byMain (Call.ShaderSource shader 1 src), byMain Call.free,
    byMain (Call.CompileShader shader)], none⟩

/-- Lines 50-96: build the shader program. -/
def buildProgram (env : Env) : Block :=
  (compileStage GLenum.VERTEX_SHADER Source.vertexShaderSrc env.vShader).andThen <|
  (checkStatus Stage.vertex env.vShader GLenum.COMPILE_STATUS env.vStatus env.vLogLength
    env.vInfoLog).andThen <|
  (compileStage GLenum.FRAGMENT_SHADER Source.fragmentShaderSrc env.fShader).andThen <|
  (checkStatus Stage.fragment env.fShader GLenum.COMPILE_STATUS env.fStatus env.fLogLength
    env.fInfoLog).andThen <|
  (Block.mk [byMain Call.CreateProgram,
      byMain (Call.AttachShader env.program env.vShader),
      byMain (Call.AttachShader env.program env.fShader),
      byMain (Call.LinkProgram env.program)] none).andThen <|
  (checkStatus Stage.link env.program GLenum.LINK_STATUS env.lStatus env.lLogLength
    env.lInfoLog).andThen <|
  Block.mk [byMain (Call.DeleteShader env.vShader),
      byMain (Call.DeleteShader env.fShader)] none

/-- Lines 111-125: geometry setup.  `len(vertices)*4` and `len(indices)*4`
are Go `int` products, `3*4` is a constant expression. -/
def setupGeometry (env : Env) : Block :=
  ⟨[byMain (Call.GenVertexArrays 1),
    byMain (Call.BindVertexArray env.vao),
    byMain (Call.GenBuffers 1),
    byMain (Call.BindBuffer GLenum.ARRAY_BUFFER env.vbo),
    byMain (Call.BufferData GLenum.ARRAY_BUFFER (toInt (vertices.length * 4))
      (Data.float32s vertices) GLenum.STATIC_DRAW),
    byMain (Call.VertexAttribPointer 0 3 GLenum.FLOAT false (3 * 4) 0),
    byMain (Call.EnableVertexAttribArray 0),
    byMain (Call.GenBuffers 1),
    byMain (Call.BindBuffer GLenum.ELEMENT_ARRAY_BUFFER env.ebo),
    byMain (Call.BufferData GLenum.ELEMENT_ARRAY_BUFFER (toInt (indices.length * 4))
      (Data.int32s indices) GLenum.STATIC_DRAW)], none⟩

/-- Lines 133-161: the calls of the loop body up to `SwapBuffers`, given the
calls issued inside `processInput`. -/
def frameCalls (program vao : Nat) (inner : List Entry) : List Entry :=
  [byMain Call.processInput] ++ inner ++
  [byMain (Call.ClearColor 0.2 0.3 0.3 1.0),
   byMain (Call.Clear COLOR_BUFFER_BIT),
   byMain (Call.UseProgram program),
   byMain (Call.BindVertexArray vao),
   byMain (Call.DrawElements GLenum.TRIANGLES 6 GLenum.UNSIGNED_INT 0),
   byMain Call.SwapBuffers]

/-- Lines 133-163: one iteration of the render loop from window state `w`,
with `events` pending at `glfw.PollEvents()`.  Gives the window state after
the iteration and the calls issued. -/
def iteration (program vao : Nat) (w : Window) (events : List Event) : Window × List Entry :=
  let p := processInput w
  let q := pollEvents p.1 events
  (q.1, frameCalls program vao p.2 ++ [byMain Call.PollEvents] ++ q.2)

/-- Result of running the render loop. -/
structure LoopRun where
  log : List Entry
  window : Window
  iterations : Nat
  exited : Bool
  deriving DecidableEq

/-- Lines 131-164: the render loop.  Each test of the loop condition is a
`window.ShouldClose()` call; an iteration is entered when the flag is false.
`frames` lists the events pending at the `PollEvents` of each iteration. -/
def renderLoop (program vao : Nat) : Window → List (List Event) → LoopRun
  | w, [] => ⟨[byMain Call.ShouldClose], w, 0, w.shouldClose⟩
  | w, events :: rest =>
    if w.shouldClose then ⟨[byMain Call.ShouldClose], w, 0, true⟩
    else
      let it := iteration program vao w events
      let r := renderLoop program vao it.1 rest
      ⟨[byMain Call.ShouldClose] ++ it.2 ++ r.log, r.window, r.iterations + 1, r.exited⟩

/-- Lines 30-48 after a successful `glfw.Init()`: window hints, window
creation, context, callback registration, `gl.Init()`. -/
def bootstrap (env : Env) : Block :=
  Block.andThen
    ⟨[byMain (Call.WindowHint Hint.ContextVersionMajor (HintValue.num 3)),
      byMain (Call.WindowHint Hint.ContextVersionMinor (HintValue.num 3)),
      byMain (Call.WindowHint Hint.OpenGLProfile HintValue.OpenGLCoreProfile),
      byMain (Call.WindowHint Hint.OpenGLForwardCompatible HintValue.True),
      byMain (Call.CreateWindow windowWidth windowHeight windowTitle)],
     env.createWindowErr.map Panic.error⟩
    ⟨[byMain Call.MakeContextCurrent,
      byMain Call.SetFramebufferSizeCallback,
      byMain Call.glInit],
     env.glInitErr.map Panic.error⟩

/-- Lines 30-125: everything between `defer glfw.Terminate()` and the two
deferred deletions. -/
def setup (env : Env) : Block :=
  (bootstrap env).andThen ((buildProgram env).andThen (setupGeometry env))

/-- Lines 24-165, `main`.  A failed `glfw.Init()` panics before anything is
deferred.  After it `glfw.Terminate()` is deferred (line 29), so a later
panic runs it; after lines 127-128 the two deletions are deferred too and run
first, in reverse order, when the loop has ended. -/
def main (env : Env) : Run :=
  match env.initErr with
  | some e => ⟨[byMain Call.glfwInit], Outcome.panicked (Panic.error e)⟩
  | none =>
    let s := setup env
    match s.panic with
    | some p => ⟨[byMain Call.glfwInit] ++ s.log ++ [byMain Call.Terminate], Outcome.panicked p⟩
    | none =>
      let r := renderLoop env.program env.vao env.window env.frames
      if r.exited then
        ⟨[byMain Call.glfwInit] ++ s.log ++ r.log ++
          [byMain (Call.DeleteBuffers 1 env.vbo),
           byMain (Call.DeleteVertexArrays 1 env.vao),
           byMain Call.Terminate], Outcome.returned⟩
      else
        ⟨[byMain Call.glfwInit] ++ s.log ++ r.log, Outcome.running⟩

/-! ## Auxiliary facts -/

/-- A log never clears the close-request flag: every `SetShouldClose` call in
it has argument `true` and is issued by `processInput`. -/
def NeverClears (log : List Entry) : Prop :=
  ∀ e ∈ log, ∀ b, e.call = Call.SetShouldClose b → b = true ∧ e.origin = Origin.inProcessInput

/-- The log entries produced by the resize callback for a list of pending
events: one callback run per framebuffer-size event, in order of delivery. -/
def callbackLog (events : List Event) : List Entry :=
  events.flatMap (fun ev =>
    match ev with
    | Event.framebufferSize width height =>
      framebufferSizeCallback (toInt width.val) (toInt height.val)
    | _ => [])

/-- A string of `n + 1` NUL bytes. -/
def nulBuffer (n : Int) : List Nat := List.replicate (n.toNat + 1) 0

/-- The three calls a failure branch adds when the log length is `n` and the
driver has the bytes `written` for the log: the log-length query, the
readback into a buffer of `n + 1` NUL bytes with maximum length `n`, and one
print of that buffer as the readback left it. -/
def diagnosticCalls (stage : Stage) (handle : Nat) (n : Int) (written : List Nat) :
    List Entry :=
  [byMain (stage.getiv handle GLenum.INFO_LOG_LENGTH),
   byMain (stage.getInfoLog handle n (nulBuffer n)),
   byMain (Call.Printf stage.message (storeInfoLog n written (nulBuffer n)))]

/-- What a status check adds to the log after its status query: nothing on
success, the diagnostic calls on failure. -/
def diagnosticsFor (stage : Stage) (handle : Nat) (reportedStatus reportedLength : Int)
    (written : List Nat) : List Entry :=
  if toInt32 reportedStatus = GL_FALSE
  then diagnosticCalls stage handle (toInt32 reportedLength) written
  else []

/-- The log length reported on a failure path lies in `0 ≤ n < 2^31 - 1`
(nothing is asked of it when the status is a success). -/
def LogLengthOk (reportedStatus reportedLength : Int) : Prop :=
  toInt32 reportedStatus = GL_FALSE →
    0 ≤ toInt32 reportedLength ∧ toInt32 reportedLength < 2147483647

/-- An environment in which everything succeeds except the vertex stage,
whose compile status is `gl.FALSE` with a reported log length of
2147483647; the window is closed by the user in the first frame. -/
def overflowEnv : Env :=
  ⟨none, none, ⟨false, Action.Release⟩, none, 1, 2, 3, 1, 1, 2,
    0, 2147483647, 1, 0, 1, 0, [], [], [], [[Event.closeRequested]]⟩

/-- An environment in which both compilations and the link fail, with log
lengths 5, 0 and 17 and driver texts "bad", nothing and "link"; the window is
closed by the user in the first frame. -/
def allFailEnv : Env :=
  ⟨none, none, ⟨false, Action.Release⟩, none, 1, 2, 3, 1, 1, 2,
    0, 5, 0, 0, 0, 17, [98, 97, 100, 0], [], [108, 105, 110, 107, 0],
    [[Event.closeRequested]]⟩

/-- Size in bytes of a Go `float32` and of a Go `int32`: the factor `4` of
`len(vertices)*4`, `len(indices)*4` and `3*4`. -/
def bytesPerElement : Int := 4

/-- Vertex `i` as the attribute layout of line 119 reads it from the vertex
data: 3 consecutive components starting at element `3 * i`. -/
def vertexAt (i : Nat) : ℚ × ℚ × ℚ :=
  (vertices.getD (3 * i) 0, vertices.getD (3 * i + 1) 0, vertices.getD (3 * i + 2) 0)

/-- Triangle `k` as a `gl.TRIANGLES` draw reads it from the index data: 3
consecutive indices starting at element `3 * k`. -/
def triangleAt (k : Nat) : Int × Int × Int :=
  (indices.getD (3 * k) 0, indices.getD (3 * k + 1) 0, indices.getD (3 * k + 2) 0)

/-- A rational that a `float32` holds exactly: `m * 2^e` with a 24-bit
significand and an exponent in the `float32` range. -/
def isFloat32 (q : ℚ) : Prop :=
  ∃ m e : Int, |m| < 16777216 ∧ -149 ≤ e ∧ e ≤ 104 ∧ q = m * (2 : ℚ) ^ e

/-- The uploads to a buffer target found in a log: size in bytes and data of
each `gl.BufferData` call on that target, in order. -/
def uploadsTo (target : GLenum) (log : List Entry) : List (Int × Data) :=
  log.filterMap (fun e =>
    match e.call with
    | Call.BufferData t size data _ => if t = target then some (size, data) else none
    | _ => none)

/-- The vertex attribute layouts found in a log: slot, components, stride and
offset of each `gl.VertexAttribPointer` call, in order. -/
def attribLayouts (log : List Entry) : List (Nat × Int × Int × Int) :=
  log.filterMap (fun e =>
    match e.call with
    | Call.VertexAttribPointer index size _ _ stride offset =>
      some (index, size, stride, offset)
    | _ => none)

/-- Every call of a log satisfies `P`. -/
def EveryCall (P : Call → Prop) (log : List Entry) : Prop := ∀ e ∈ log, P e.call

/-- The call is not an indexed draw. -/
def notDraw : Call → Prop
  | Call.DrawElements _ _ _ _ => False
  | _ => True

/-- If the call is an indexed draw, it is the draw of line 158:
`DrawElements(TRIANGLES, 6, UNSIGNED_INT, offset 0)`. -/
def onlyFrameDraw : Call → Prop
  | Call.DrawElements mode count xtype offset =>
    mode = GLenum.TRIANGLES ∧ count = 6 ∧ xtype = GLenum.UNSIGNED_INT ∧ offset = 0
  | _ => True

/-- If the call is an indexed draw, the bytes it reads, `count` indices of 4
bytes from byte `offset` on, lie inside index data of `indexBytes` bytes. -/
def drawWithin (indexBytes : Int) : Call → Prop
  | Call.DrawElements _ count _ offset =>
    0 ≤ offset ∧ 0 ≤ count ∧ offset + count * bytesPerElement ≤ indexBytes
  | _ => True

theorem neverClears_append {a b : List Entry} (ha : NeverClears a) (hb : NeverClears b) :
    NeverClears (a ++ b) := by
  intro e he
  rcases List.mem_append.mp he with h | h
  · exact ha e h
  · exact hb e h

theorem neverClears_andThen {a b : Block} (ha : NeverClears a.log) (hb : NeverClears b.log) :
    NeverClears (a.andThen b).log := by
  unfold Block.andThen
  cases h : a.panic with
  | some p => simpa using ha
  | none => simpa using neverClears_append ha hb

theorem neverClears_of_none {log : List Entry}
    (h : ∀ e ∈ log, ∀ b, e.call ≠ Call.SetShouldClose b) : NeverClears log := by
  intro e he b hb
  exact absurd hb (h e he b)

theorem neverClears_processInput (w : Window) : NeverClears (processInput w).2 := by
  intro e he b hb
  unfold processInput at he
  split at he
  · simp at he
    rcases he with rfl | rfl
    · simp at hb
    · simp at hb
      exact ⟨hb, rfl⟩
  · simp at he
    subst he
    simp at hb

theorem neverClears_pollEvents (w : Window) (events : List Event) :
    NeverClears (pollEvents w events).2 := by
  induction events generalizing w with
  | nil => intro e he; simp [pollEvents] at he
  | cons ev rest ih =>
    simp only [pollEvents]
    refine neverClears_append (neverClears_of_none ?_) (ih _)
    cases ev <;> simp [deliver, framebufferSizeCallback]

theorem neverClears_iteration (program vao : Nat) (w : Window) (events : List Event) :
    NeverClears (iteration program vao w events).2 := by
  simp only [iteration, frameCalls]
  refine neverClears_append (neverClears_append (neverClears_append (neverClears_append
    (neverClears_of_none ?_) (neverClears_processInput w)) (neverClears_of_none ?_))
    (neverClears_of_none ?_)) (neverClears_pollEvents _ _)
  all_goals simp [byMain]

theorem neverClears_renderLoop (program vao : Nat) (w : Window) (frames : List (List Event)) :
    NeverClears (renderLoop program vao w frames).log := by
  induction frames generalizing w with
  | nil => exact neverClears_of_none (by simp [renderLoop, byMain])
  | cons events rest ih =>
    unfold renderLoop
    split
    · exact neverClears_of_none (by simp [byMain])
    · exact neverClears_append (neverClears_append (neverClears_of_none (by simp [byMain]))
        (neverClears_iteration _ _ _ _)) (ih _)

theorem neverClears_diagnose (stage : Stage) (handle : Nat) (n : Int) (t : List Nat) :
    NeverClears (diagnose stage handle n t).log := by
  apply neverClears_of_none
  unfold diagnose
  dsimp only
  split
  · cases stage <;> simp [byMain, Stage.getiv]
  · split
    · cases stage <;> simp [byMain, Stage.getiv]
    · cases stage <;> simp [byMain, Stage.getiv, Stage.getInfoLog]

theorem neverClears_checkStatus (stage : Stage) (handle : Nat) (pname : GLenum) (st n : Int)
    (t : List Nat) : NeverClears (checkStatus stage handle pname st n t).log := by
  unfold checkStatus
  refine neverClears_andThen (neverClears_of_none ?_) ?_
  · cases stage <;> simp [byMain, Stage.getiv]
  · split
    · exact neverClears_diagnose _ _ _ _
    · exact neverClears_of_none (by simp)

theorem neverClears_setup (env : Env) : NeverClears (setup env).log := by
  unfold setup bootstrap buildProgram setupGeometry compileStage
  repeat first
    | exact neverClears_checkStatus _ _ _ _ _ _
    | apply neverClears_andThen
    | exact neverClears_of_none (by simp [byMain])

theorem neverClears_main (env : Env) : NeverClears (main env).log := by
  have hs := neverClears_setup env
  have hr := neverClears_renderLoop env.program env.vao env.window env.frames
  have h0 : NeverClears [byMain Call.glfwInit] := neverClears_of_none (by simp [byMain])
  unfold main
  split
  · exact h0
  · dsimp only
    split
    · exact neverClears_append (neverClears_append h0 hs) (neverClears_of_none (by simp [byMain]))
    · split
      · exact neverClears_append (neverClears_append (neverClears_append h0 hs) hr)
          (neverClears_of_none (by simp [byMain]))
      · exact neverClears_append (neverClears_append h0 hs) hr

theorem pollEvents_keeps_flag (w : Window) (events : List Event) (h : w.shouldClose = true) :
    (pollEvents w events).1.shouldClose = true := by
  induction events generalizing w with
  | nil => simpa [pollEvents] using h
  | cons ev rest ih =>
    simp only [pollEvents]
    apply ih
    cases ev <;> simp [deliver, h]

/-! ## Claims -/

/-- C1: `processInput` sets the close-request flag to true when the escape key
state is `Press` and otherwise leaves the window state unchanged; so it never
turns a true flag into false, applying it twice is the same as applying it
once, an escape press observed in a frame makes the flag true right after the
`processInput` call of that frame and it is still true when the frame ends;
and no call in any run of `main` is `SetShouldClose(false)`: every
`SetShouldClose` call has argument `true` and is issued by `processInput`. -/
theorem processInput_sets_flag_monotone_idempotent (w : Window) (env : Env) :
    (processInput w).1 = (if w.keyEscape = Action.Press then ⟨true, w.keyEscape⟩ else w)
    ∧ (w.shouldClose = true → (processInput w).1.shouldClose = true)
    ∧ (processInput (processInput w).1).1 = (processInput w).1
    ∧ (w.keyEscape = Action.Press → (processInput w).1.shouldClose = true)
    ∧ (∀ program vao events, w.keyEscape = Action.Press →
        (iteration program vao w events).1.shouldClose = true)
    ∧ (∀ e ∈ (main env).log, ∀ b, e.call = Call.SetShouldClose b →
        b = true ∧ e.origin = Origin.inProcessInput) := by
  refine ⟨?_, ?_, ?_, ?_, ?_, neverClears_main env⟩
  · unfold processInput
    split <;> rfl
  · intro h
    unfold processInput
    split
    · rfl
    · exact h
  · unfold processInput
    by_cases h : w.keyEscape = Action.Press <;> simp [h]
  · intro h
    simp [processInput, h]
  · intro program vao events h
    simp only [iteration]
    apply pollEvents_keeps_flag
    simp [processInput, h]

/-- Witness for C1: a window whose flag is already set and whose escape key
is pressed. -/
theorem processInput_sets_flag_witness :
    (processInput ⟨true, Action.Press⟩).1.shouldClose = true :=
  (processInput_sets_flag_monotone_idempotent ⟨true, Action.Press⟩
    ⟨none, none, ⟨false, Action.Release⟩, none, 1, 2, 3, 1, 1, 2, 1, 0, 1, 0, 1, 0,
      [], [], [], []⟩).2.1 rfl

theorem toInt32_of_isInt32 {x : Int} (h : isInt32 x) : toInt32 x = x := by
  unfold isInt32 at h
  unfold toInt32
  omega

theorem toInt_of_isInt32 {x : Int} (h : isInt32 x) : toInt x = x := by
  unfold isInt32 at h
  unfold toInt
  omega

theorem callback_of_cint (width height : CInt) :
    framebufferSizeCallback (toInt width.val) (toInt height.val) =
      [⟨Origin.inFramebufferSizeCallback, Call.Viewport 0 0 width.val height.val⟩] := by
  simp [framebufferSizeCallback, toInt_of_isInt32 width.property,
    toInt_of_isInt32 height.property, toInt32_of_isInt32 width.property,
    toInt32_of_isInt32 height.property]

theorem pollEvents_log (w : Window) (events : List Event) :
    (pollEvents w events).2 = callbackLog events := by
  induction events generalizing w with
  | nil => simp [pollEvents, callbackLog]
  | cons ev rest ih =>
    simp only [pollEvents, callbackLog, List.flatMap_cons]
    rw [ih]
    cases ev <;> simp [deliver, callbackLog]

theorem callbackLog_origin (events : List Event) :
    ∀ e ∈ callbackLog events, e.origin = Origin.inFramebufferSizeCallback := by
  intro e he
  simp only [callbackLog, List.mem_flatMap] at he
  obtain ⟨ev, -, hev⟩ := he
  cases ev <;> simp [framebufferSizeCallback] at hev
  subst hev
  rfl

theorem renderLoop_cons_open (program vao : Nat) (w : Window) (events : List Event)
    (rest : List (List Event)) (h : w.shouldClose = false) :
    (renderLoop program vao w (events :: rest)).log =
      [byMain Call.ShouldClose] ++ frameCalls program vao (processInput w).2 ++
        [byMain Call.PollEvents] ++ callbackLog events ++
        (renderLoop program vao (iteration program vao w events).1 rest).log := by
  simp [renderLoop, h, iteration, pollEvents_log]

/-- C2: for every resize event, with width and height as glfw delivers them,
the callback issues exactly one call, `gl.Viewport(0, 0, width, height)` (the
conversion `int32(...)` of line 189 leaves the sizes of an event unchanged).
`PollEvents` logs one callback run per framebuffer-size event and nothing
else, and in a loop whose iteration is entered the log is: loop test, the
frame calls (clear and draw), `PollEvents`, the callback runs, then the log
of the following iterations; so the `Viewport` call of a resize event
delivered in one iteration comes after that iteration's `PollEvents` and only
callback entries stand between it and the first entry of the next
iteration. -/
theorem framebufferSizeCallback_viewport (width height : CInt) :
    framebufferSizeCallback (toInt width.val) (toInt height.val) =
      [⟨Origin.inFramebufferSizeCallback, Call.Viewport 0 0 width.val height.val⟩]
    ∧ (∀ w : Window, deliver w (Event.framebufferSize width height) =
        (w, [⟨Origin.inFramebufferSizeCallback, Call.Viewport 0 0 width.val height.val⟩]))
    ∧ (∀ a b : Int, isInt32 a → isInt32 b → framebufferSizeCallback a b =
        [⟨Origin.inFramebufferSizeCallback, Call.Viewport 0 0 a b⟩])
    ∧ (∀ (w : Window) (events : List Event), (pollEvents w events).2 = callbackLog events)
    ∧ (∀ (program vao : Nat) (w : Window) (events : List Event) (rest : List (List Event)),
        w.shouldClose = false →
        (renderLoop program vao w (events :: rest)).log =
          [byMain Call.ShouldClose] ++ frameCalls program vao (processInput w).2 ++
            [byMain Call.PollEvents] ++ callbackLog events ++
            (renderLoop program vao (iteration program vao w events).1 rest).log)
    ∧ (∀ (program vao : Nat) (w : Window) (events : List Event) (rest : List (List Event)),
        w.shouldClose = false → Event.framebufferSize width height ∈ events →
        ∃ pre post : List Entry,
          (renderLoop program vao w (events :: rest)).log =
            pre ++ [byMain Call.PollEvents] ++ post ++
              (renderLoop program vao (iteration program vao w events).1 rest).log
          ∧ (⟨Origin.inFramebufferSizeCallback, Call.Viewport 0 0 width.val height.val⟩ : Entry)
              ∈ post
          ∧ (∀ e ∈ post, e.origin = Origin.inFramebufferSizeCallback)) := by
  have hcb := callback_of_cint width height
  refine ⟨hcb, ?_, ?_, pollEvents_log, renderLoop_cons_open, ?_⟩
  · intro w
    simp only [deliver, hcb]
  · intro a b ha hb
    simp [framebufferSizeCallback, toInt32_of_isInt32 ha, toInt32_of_isInt32 hb]
  · intro program vao w events rest hopen hmem
    refine ⟨[byMain Call.ShouldClose] ++ frameCalls program vao (processInput w).2,
      callbackLog events, ?_, ?_, callbackLog_origin events⟩
    · rw [renderLoop_cons_open program vao w events rest hopen]
    · simp only [callbackLog, List.mem_flatMap]
      exact ⟨_, hmem, by simp [hcb]⟩

/-- Witness for C2: a resize to 1024 x 768 delivered to an open window. -/
theorem framebufferSizeCallback_viewport_witness :
    deliver ⟨false, Action.Release⟩
        (Event.framebufferSize ⟨1024, by unfold isInt32; decide⟩
          ⟨768, by unfold isInt32; decide⟩) =
      (⟨false, Action.Release⟩,
        [⟨Origin.inFramebufferSizeCallback, Call.Viewport 0 0 1024 768⟩]) :=
  (framebufferSizeCallback_viewport ⟨1024, by unfold isInt32; decide⟩
    ⟨768, by unfold isInt32; decide⟩).2.1 ⟨false, Action.Release⟩

theorem replicate_nul_flatten (k : Nat) :
    (List.replicate k [0]).flatten = List.replicate k (0 : Nat) := by
  induction k with
  | zero => rfl
  | succ k ih => simp [List.replicate_succ, ih]

theorem logBuffer_ok {n : Int} (h0 : 0 ≤ n) (h1 : n < 2147483647) :
    logBuffer n = Except.ok (nulBuffer n) := by
  have h32 : toInt32 (n + 1) = n + 1 := by unfold toInt32; omega
  have h64 : toInt (n + 1) = n + 1 := by unfold toInt; omega
  have hk : (n + 1).toNat = n.toNat + 1 := by omega
  unfold logBuffer stringsRepeat nulBuffer
  rw [h32, h64, if_neg (by omega), replicate_nul_flatten, hk]

theorem glStr_nulBuffer (n : Int) : glStr (nulBuffer n) = Except.ok (nulBuffer n) := by
  unfold glStr nulBuffer
  rw [if_pos]
  simp [List.getLast?_replicate]

theorem diagnose_ok (stage : Stage) (handle : Nat) (reported : Int) (t : List Nat)
    (h0 : 0 ≤ toInt32 reported) (h1 : toInt32 reported < 2147483647) :
    diagnose stage handle reported t =
      ⟨diagnosticCalls stage handle (toInt32 reported) t, none⟩ := by
  unfold diagnose
  simp [logBuffer_ok h0 h1, glStr_nulBuffer, diagnosticCalls]

theorem checkStatus_ok (stage : Stage) (handle : Nat) (pname : GLenum) (st n : Int)
    (t : List Nat) (h : LogLengthOk st n) :
    checkStatus stage handle pname st n t =
      ⟨byMain (stage.getiv handle pname) :: diagnosticsFor stage handle st n t, none⟩ := by
  unfold checkStatus diagnosticsFor
  by_cases hs : toInt32 st = GL_FALSE
  · obtain ⟨h0, h1⟩ := h hs
    simp [hs, diagnose_ok stage handle n t h0 h1, Block.andThen]
  · simp [hs, Block.andThen]

theorem buildProgram_ok (env : Env)
    (hv : LogLengthOk env.vStatus env.vLogLength)
    (hf : LogLengthOk env.fStatus env.fLogLength)
    (hl : LogLengthOk env.lStatus env.lLogLength) :
    buildProgram env =
      ⟨[byMain (Call.CreateShader GLenum.VERTEX_SHADER),
        byMain (Call.Strs Source.vertexShaderSrc),
        byMain (Call.ShaderSource env.vShader 1 Source.vertexShaderSrc),
        byMain Call.free,
        byMain (Call.CompileShader env.vShader),
        byMain (Call.GetShaderiv env.vShader GLenum.COMPILE_STATUS)]
        ++ diagnosticsFor Stage.vertex env.vShader env.vStatus env.vLogLength env.vInfoLog ++
       [byMain (Call.CreateShader GLenum.FRAGMENT_SHADER),
        byMain (Call.Strs Source.fragmentShaderSrc),
        byMain (Call.ShaderSource env.fShader 1 Source.fragmentShaderSrc),
        byMain Call.free,
        byMain (Call.CompileShader env.fShader),
        byMain (Call.GetShaderiv env.fShader GLenum.COMPILE_STATUS)]
        ++ diagnosticsFor Stage.fragment env.fShader env.fStatus env.fLogLength
            env.fInfoLog ++
       [byMain Call.CreateProgram,
        byMain (Call.AttachShader env.program env.vShader),
        byMain (Call.AttachShader env.program env.fShader),
        byMain (Call.LinkProgram env.program),
        byMain (Call.GetProgramiv env.program GLenum.LINK_STATUS)]
        ++ diagnosticsFor Stage.link env.program env.lStatus env.lLogLength env.lInfoLog ++
       [byMain (Call.DeleteShader env.vShader),
        byMain (Call.DeleteShader env.fShader)], none⟩ := by
  unfold buildProgram
  rw [checkStatus_ok _ _ _ _ _ _ hv, checkStatus_ok _ _ _ _ _ _ hf,
    checkStatus_ok _ _ _ _ _ _ hl]
  simp [Block.andThen, compileStage, Stage.getiv]

/-- C3 (amended): when the bootstrap succeeds and the log length reported on
each failure path lies in `0 ≤ n < 2^31 - 1`, then for every value of the two
compile statuses and the link status the shader phase issues the same calls
in the same order (create, source, compile and status query for each stage;
create program, attach both stages, link, link-status query; delete both
stage handles after the link), a failed status adding only the log-length
query, the log readback and one print right after its status query; no step
panics, geometry setup follows, and the render loop is run. -/
theorem buildProgram_log_and_continue (env : Env)
    (hi : env.initErr = none) (hc : env.createWindowErr = none) (hg : env.glInitErr = none)
    (hv : LogLengthOk env.vStatus env.vLogLength)
    (hf : LogLengthOk env.fStatus env.fLogLength)
    (hl : LogLengthOk env.lStatus env.lLogLength) :
    buildProgram env =
      ⟨[byMain (Call.CreateShader GLenum.VERTEX_SHADER),
        byMain (Call.Strs Source.vertexShaderSrc),
        byMain (Call.ShaderSource env.vShader 1 Source.vertexShaderSrc),
        byMain Call.free,
        byMain (Call.CompileShader env.vShader),
        byMain (Call.GetShaderiv env.vShader GLenum.COMPILE_STATUS)]
        ++ (if toInt32 env.vStatus = GL_FALSE
            then diagnosticCalls Stage.vertex env.vShader (toInt32 env.vLogLength)
              env.vInfoLog
            else []) ++
       [byMain (Call.CreateShader GLenum.FRAGMENT_SHADER),
        byMain (Call.Strs Source.fragmentShaderSrc),
        byMain (Call.ShaderSource env.fShader 1 Source.fragmentShaderSrc),
        byMain Call.free,
        byMain (Call.CompileShader env.fShader),
        byMain (Call.GetShaderiv env.fShader GLenum.COMPILE_STATUS)]
        ++ (if toInt32 env.fStatus = GL_FALSE
            then diagnosticCalls Stage.fragment env.fShader (toInt32 env.fLogLength)
              env.fInfoLog
            else []) ++
       [byMain Call.CreateProgram,
        byMain (Call.AttachShader env.program env.vShader),
        byMain (Call.AttachShader env.program env.fShader),
        byMain (Call.LinkProgram env.program),
        byMain (Call.GetProgramiv env.program GLenum.LINK_STATUS)]
        ++ (if toInt32 env.lStatus = GL_FALSE
            then diagnosticCalls Stage.link env.program (toInt32 env.lLogLength)
              env.lInfoLog
            else []) ++
       [byMain (Call.DeleteShader env.vShader),
        byMain (Call.DeleteShader env.fShader)], none⟩
    ∧ setup env =
        ⟨(bootstrap env).log ++ (buildProgram env).log ++ (setupGeometry env).log, none⟩
    ∧ (main env).log =
        [byMain Call.glfwInit] ++ (bootstrap env).log ++ (buildProgram env).log
          ++ (setupGeometry env).log
          ++ (renderLoop env.program env.vao env.window env.frames).log
          ++ (if (renderLoop env.program env.vao env.window env.frames).exited
              then [byMain (Call.DeleteBuffers 1 env.vbo),
                    byMain (Call.DeleteVertexArrays 1 env.vao),
                    byMain Call.Terminate]
              else [])
    ∧ (main env).outcome =
        (if (renderLoop env.program env.vao env.window env.frames).exited
         then Outcome.returned else Outcome.running) := by
  have hb := buildProgram_ok env hv hf hl
  have hbp : (buildProgram env).panic = none := by rw [hb]
  have hboot : (bootstrap env).panic = none := by simp [bootstrap, Block.andThen, hc, hg]
  have hset : setup env =
      ⟨(bootstrap env).log ++ (buildProgram env).log ++ (setupGeometry env).log, none⟩ := by
    simp [setup, Block.andThen, hboot, hbp, setupGeometry]
  have hsp : (setup env).panic = none := by rw [hset]
  have hsl : (setup env).log =
      (bootstrap env).log ++ (buildProgram env).log ++ (setupGeometry env).log := by rw [hset]
  refine ⟨?_, hset, ?_, ?_⟩
  · simpa [diagnosticsFor] using hb
  · simp only [main, hi, hsp, hsl]
    split <;> simp
  · simp only [main, hi, hsp]
    split <;> simp [*]

/-- Witness for C3: all three statuses fail, with log lengths 5, 0 and 17. -/
theorem buildProgram_log_and_continue_witness :
    (main allFailEnv).outcome =
      (if (renderLoop allFailEnv.program allFailEnv.vao allFailEnv.window
            allFailEnv.frames).exited
       then Outcome.returned else Outcome.running) :=
  (buildProgram_log_and_continue allFailEnv rfl rfl rfl
    (by unfold LogLengthOk; decide) (by unfold LogLengthOk; decide)
    (by unfold LogLengthOk; decide)).2.2.2

/-- Counterexample for C3 as stated: with a failed vertex compile status and a
reported log length of 2147483647 the `int32` sum `logLength+1` is
-2147483648, `strings.Repeat` panics, and `main` ends after the log-length
query: no program is created, nothing is linked, no stage handle is deleted,
no geometry is set up and the render loop is not reached. -/
theorem failed_compile_can_abort :
    main overflowEnv =
      ⟨[byMain Call.glfwInit,
        byMain (Call.WindowHint Hint.ContextVersionMajor (HintValue.num 3)),
        byMain (Call.WindowHint Hint.ContextVersionMinor (HintValue.num 3)),
        byMain (Call.WindowHint Hint.OpenGLProfile HintValue.OpenGLCoreProfile),
        byMain (Call.WindowHint Hint.OpenGLForwardCompatible HintValue.True),
        byMain (Call.CreateWindow 800 600 "Learn OpenGL :: Window"),
        byMain Call.MakeContextCurrent,
        byMain Call.SetFramebufferSizeCallback,
        byMain Call.glInit,
        byMain (Call.CreateShader GLenum.VERTEX_SHADER),
        byMain (Call.Strs Source.vertexShaderSrc),
        byMain (Call.ShaderSource 1 1 Source.vertexShaderSrc),
        byMain Call.free,
        byMain (Call.CompileShader 1),
        byMain (Call.GetShaderiv 1 GLenum.COMPILE_STATUS),
        byMain (Call.GetShaderiv 1 GLenum.INFO_LOG_LENGTH),
        byMain Call.Terminate],
       Outcome.panicked Panic.negativeRepeatCount⟩ := by
  decide

theorem storeInfoLog_length (bufSize : Int) (written buf : List Nat)
    (h : bufSize.toNat ≤ buf.length) :
    (storeInfoLog bufSize written buf).length = buf.length := by
  simp only [storeInfoLog, List.length_append, List.length_take, List.length_drop]
  omega

theorem storeInfoLog_nulBuffer_last (n : Int) (written : List Nat) :
    (storeInfoLog n written (nulBuffer n)).getLast? = some 0 := by
  have hk : (List.take n.toNat written).length ≤ n.toNat := by
    simp only [List.length_take]
    omega
  have hsub : n.toNat + 1 - (List.take n.toNat written).length =
      (n.toNat - (List.take n.toNat written).length) + 1 := by omega
  simp only [storeInfoLog, nulBuffer, List.drop_replicate]
  rw [hsub, List.replicate_succ', ← List.append_assoc, List.getLast?_concat]

/-- C10: on each of the three failure paths, for a reported log length `n`
with `0 ≤ n < 2^31 - 1`, the buffer built by
`strings.Repeat("\x00", int(logLength+1))` is a string of exactly `n + 1` NUL
bytes; it is non-empty and ends in NUL, so `gl.Str` accepts it, and its
length exceeds the maximum length `n` passed to the readback call; so
whatever bytes the driver has for the log, the readback stays inside the
buffer: the buffer keeps its length `n + 1` and its final NUL.  The branch
issues the log-length query, the readback with maximum length `n` into that
buffer, and the print of the buffer as the readback left it, without a
panic.  The sum is an `int32` sum: at `n = 2^31 - 1` it is `-2^31` and
`strings.Repeat` panics, so the upper bound is needed. -/
theorem logBuffer_fits (stage : Stage) (handle : Nat) (n : Int) (written : List Nat)
    (h0 : 0 ≤ n) (h1 : n < 2147483647) :
    logBuffer n = Except.ok (List.replicate (n.toNat + 1) 0)
    ∧ ((List.replicate (n.toNat + 1) 0).length : Int) = n + 1
    ∧ List.replicate (n.toNat + 1) (0 : Nat) ≠ []
    ∧ (List.replicate (n.toNat + 1) (0 : Nat)).getLast? = some 0
    ∧ glStr (List.replicate (n.toNat + 1) 0) = Except.ok (List.replicate (n.toNat + 1) 0)
    ∧ n < ((List.replicate (n.toNat + 1) 0).length : Int)
    ∧ ((storeInfoLog n written (List.replicate (n.toNat + 1) 0)).length : Int) = n + 1
    ∧ (storeInfoLog n written (List.replicate (n.toNat + 1) 0)).getLast? = some 0
    ∧ diagnose stage handle n written =
        ⟨[byMain (stage.getiv handle GLenum.INFO_LOG_LENGTH),
          byMain (stage.getInfoLog handle n (List.replicate (n.toNat + 1) 0)),
          byMain (Call.Printf stage.message
            (storeInfoLog n written (List.replicate (n.toNat + 1) 0)))], none⟩
    ∧ toInt32 (2147483647 + 1) = -2147483648
    ∧ logBuffer 2147483647 = Except.error Panic.negativeRepeatCount := by
  have hn : toInt32 n = n := toInt32_of_isInt32 (by unfold isInt32; omega)
  have hd := diagnose_ok stage handle n written (by rw [hn]; exact h0) (by rw [hn]; exact h1)
  rw [hn] at hd
  have hlen := storeInfoLog_length n written (List.replicate (n.toNat + 1) 0)
    (by simp only [List.length_replicate]; omega)
  refine ⟨logBuffer_ok h0 h1, ?_, ?_, ?_, glStr_nulBuffer n, ?_, ?_,
    storeInfoLog_nulBuffer_last n written, hd, by decide, rfl⟩
  · simp only [List.length_replicate]
    push_cast
    omega
  · simp
  · simp [List.getLast?_replicate]
  · simp only [List.length_replicate]
    push_cast
    omega
  · rw [hlen]
    simp only [List.length_replicate]
    push_cast
    omega

/-- Witness for C10: the link failure path with a reported log length of 3
and a driver text of five bytes. -/
theorem logBuffer_fits_witness :
    logBuffer 3 = Except.ok [0, 0, 0, 0] :=
  (logBuffer_fits Stage.link 3 3 [108, 105, 110, 107, 0] (by decide) (by decide)).1

theorem mainLevel_append (a b : List Entry) :
    mainLevel (a ++ b) = mainLevel a ++ mainLevel b := by
  simp [mainLevel]

theorem mainLevel_processInput (w : Window) : mainLevel (processInput w).2 = [] := by
  unfold processInput
  split <;> simp [mainLevel]

theorem mainLevel_callbackLog (events : List Event) : mainLevel (callbackLog events) = [] := by
  simp only [mainLevel, List.map_eq_nil_iff, List.filter_eq_nil_iff]
  intro e he
  simp [callbackLog_origin events e he]

theorem mainLevel_iteration (program vao : Nat) (w : Window) (events : List Event) :
    mainLevel (iteration program vao w events).2 =
      [Call.processInput,
       Call.ClearColor 0.2 0.3 0.3 1.0,
       Call.Clear COLOR_BUFFER_BIT,
       Call.UseProgram program,
       Call.BindVertexArray vao,
       Call.DrawElements GLenum.TRIANGLES 6 GLenum.UNSIGNED_INT 0,
       Call.SwapBuffers,
       Call.PollEvents] := by
  simp only [iteration, frameCalls, mainLevel_append, pollEvents_log, mainLevel_callbackLog,
    mainLevel_processInput]
  simp [mainLevel, byMain]

theorem mainLevel_renderLoop (program vao : Nat) (w : Window) (frames : List (List Event)) :
    mainLevel (renderLoop program vao w frames).log =
      (List.replicate (renderLoop program vao w frames).iterations
        [Call.ShouldClose,
         Call.processInput,
         Call.ClearColor 0.2 0.3 0.3 1.0,
         Call.Clear COLOR_BUFFER_BIT,
         Call.UseProgram program,
         Call.BindVertexArray vao,
         Call.DrawElements GLenum.TRIANGLES 6 GLenum.UNSIGNED_INT 0,
         Call.SwapBuffers,
         Call.PollEvents]).flatten ++ [Call.ShouldClose] := by
  induction frames generalizing w with
  | nil => simp [renderLoop, mainLevel, byMain]
  | cons events rest ih =>
    unfold renderLoop
    split
    · simp [mainLevel, byMain]
    · simp only [mainLevel_append, ih, mainLevel_iteration, List.replicate_succ,
        List.flatten_cons]
      simp [mainLevel, byMain]

theorem renderLoop_closed (program vao : Nat) (w : Window) (frames : List (List Event))
    (h : w.shouldClose = true) :
    renderLoop program vao w frames = ⟨[byMain Call.ShouldClose], w, 0, true⟩ := by
  cases frames with
  | nil => simp [renderLoop, h]
  | cons events rest => simp [renderLoop, h]

/-- C4: every iteration of the render loop issues, from the body of `main`,
exactly the calls `processInput`, `ClearColor(0.2, 0.3, 0.3, 1.0)`,
`Clear(COLOR_BUFFER_BIT)`, `UseProgram(program)`, `BindVertexArray(vao)`,
`DrawElements(TRIANGLES, 6, UNSIGNED_INT, 0)`, `SwapBuffers`, `PollEvents`, in
this order, whatever the window state (escape pressed or not); the clear mask
has neither the depth nor the stencil bit; the calls of `main` during the
whole loop are that sequence, each preceded by the loop test, once per
iteration entered, followed by the final loop test; an iteration is entered
when the flag is false at the test, none when it is true; and when the flag
is false and escape is pressed, that frame is issued in full and is the
last one. -/
theorem renderLoop_frame_sequence (program vao : Nat) (w : Window) (events : List Event)
    (frames : List (List Event)) :
    mainLevel (iteration program vao w events).2 =
      [Call.processInput,
       Call.ClearColor 0.2 0.3 0.3 1.0,
       Call.Clear COLOR_BUFFER_BIT,
       Call.UseProgram program,
       Call.BindVertexArray vao,
       Call.DrawElements GLenum.TRIANGLES 6 GLenum.UNSIGNED_INT 0,
       Call.SwapBuffers,
       Call.PollEvents]
    ∧ (iteration program vao w events).2 =
        [byMain Call.processInput,
         ⟨Origin.inProcessInput, Call.GetKey Key.KeyEscape⟩]
        ++ (if w.keyEscape = Action.Press
            then [⟨Origin.inProcessInput, Call.SetShouldClose true⟩] else []) ++
        [byMain (Call.ClearColor 0.2 0.3 0.3 1.0),
         byMain (Call.Clear COLOR_BUFFER_BIT),
         byMain (Call.UseProgram program),
         byMain (Call.BindVertexArray vao),
         byMain (Call.DrawElements GLenum.TRIANGLES 6 GLenum.UNSIGNED_INT 0),
         byMain Call.SwapBuffers,
         byMain Call.PollEvents] ++ callbackLog events
    ∧ COLOR_BUFFER_BIT &&& DEPTH_BUFFER_BIT = 0
    ∧ COLOR_BUFFER_BIT &&& STENCIL_BUFFER_BIT = 0
    ∧ mainLevel (renderLoop program vao w frames).log =
        (List.replicate (renderLoop program vao w frames).iterations
          [Call.ShouldClose,
           Call.processInput,
           Call.ClearColor 0.2 0.3 0.3 1.0,
           Call.Clear COLOR_BUFFER_BIT,
           Call.UseProgram program,
           Call.BindVertexArray vao,
           Call.DrawElements GLenum.TRIANGLES 6 GLenum.UNSIGNED_INT 0,
           Call.SwapBuffers,
           Call.PollEvents]).flatten ++ [Call.ShouldClose]
    ∧ (w.shouldClose = true →
        renderLoop program vao w frames = ⟨[byMain Call.ShouldClose], w, 0, true⟩)
    ∧ (w.shouldClose = false →
        (renderLoop program vao w (events :: frames)).log =
          [byMain Call.ShouldClose] ++ (iteration program vao w events).2 ++
            (renderLoop program vao (iteration program vao w events).1 frames).log
        ∧ (renderLoop program vao w (events :: frames)).iterations =
          (renderLoop program vao (iteration program vao w events).1 frames).iterations + 1)
    ∧ (w.shouldClose = false → w.keyEscape = Action.Press →
        (renderLoop program vao w (events :: frames)).iterations = 1
        ∧ (renderLoop program vao w (events :: frames)).exited = true
        ∧ (renderLoop program vao w (events :: frames)).log =
            [byMain Call.ShouldClose] ++ (iteration program vao w events).2 ++
              [byMain Call.ShouldClose]) := by
  refine ⟨mainLevel_iteration program vao w events, ?_, by decide, by decide,
    mainLevel_renderLoop program vao w frames, renderLoop_closed program vao w frames, ?_, ?_⟩
  · simp only [iteration, frameCalls, pollEvents_log, processInput]
    split <;> simp
  · intro h
    simp [renderLoop, h]
  · intro h hk
    have hflag : (iteration program vao w events).1.shouldClose = true := by
      simp only [iteration]
      apply pollEvents_keeps_flag
      simp [processInput, hk]
    have hrest := renderLoop_closed program vao (iteration program vao w events).1 frames hflag
    simp [renderLoop, h, hrest]

/-- Witness for C4: a window with the flag set, and a window with the flag
clear and escape pressed. -/
theorem renderLoop_frame_sequence_witness :
    renderLoop 3 1 ⟨true, Action.Release⟩ [[]] =
      ⟨[byMain Call.ShouldClose], ⟨true, Action.Release⟩, 0, true⟩ :=
  (renderLoop_frame_sequence 3 1 ⟨true, Action.Release⟩ [] [[]]).2.2.2.2.2.1 rfl

theorem setup_log_starts (env : Env) (hc : env.createWindowErr = none)
    (hg : env.glInitErr = none) :
    ∃ rest, (setup env).log =
      [byMain (Call.WindowHint Hint.ContextVersionMajor (HintValue.num 3)),
       byMain (Call.WindowHint Hint.ContextVersionMinor (HintValue.num 3)),
       byMain (Call.WindowHint Hint.OpenGLProfile HintValue.OpenGLCoreProfile),
       byMain (Call.WindowHint Hint.OpenGLForwardCompatible HintValue.True),
       byMain (Call.CreateWindow 800 600 "Learn OpenGL :: Window"),
       byMain Call.MakeContextCurrent,
       byMain Call.SetFramebufferSizeCallback,
       byMain Call.glInit,
       byMain (Call.CreateShader GLenum.VERTEX_SHADER)] ++ rest := by
  have hboot : bootstrap env = ⟨(bootstrap env).log, none⟩ := by
    simp [bootstrap, Block.andThen, hc, hg]
  have hcomp : ∀ b : Block, ∃ rest,
      ((compileStage GLenum.VERTEX_SHADER Source.vertexShaderSrc env.vShader).andThen b).log =
        byMain (Call.CreateShader GLenum.VERTEX_SHADER) :: rest := by
    intro b
    simp [compileStage, Block.andThen]
  obtain ⟨r1, hr1⟩ := hcomp
    ((checkStatus Stage.vertex env.vShader GLenum.COMPILE_STATUS env.vStatus
        env.vLogLength env.vInfoLog).andThen <|
      (compileStage GLenum.FRAGMENT_SHADER Source.fragmentShaderSrc env.fShader).andThen <|
      (checkStatus Stage.fragment env.fShader GLenum.COMPILE_STATUS env.fStatus
        env.fLogLength env.fInfoLog).andThen <|
      (Block.mk [byMain Call.CreateProgram,
          byMain (Call.AttachShader env.program env.vShader),
          byMain (Call.AttachShader env.program env.fShader),
          byMain (Call.LinkProgram env.program)] none).andThen <|
      (checkStatus Stage.link env.program GLenum.LINK_STATUS env.lStatus
        env.lLogLength env.lInfoLog).andThen <|
      Block.mk [byMain (Call.DeleteShader env.vShader),
          byMain (Call.DeleteShader env.fShader)] none)
  have hbuild : (buildProgram env).log =
      byMain (Call.CreateShader GLenum.VERTEX_SHADER) :: r1 := hr1
  have hbl : (bootstrap env).log =
      [byMain (Call.WindowHint Hint.ContextVersionMajor (HintValue.num 3)),
       byMain (Call.WindowHint Hint.ContextVersionMinor (HintValue.num 3)),
       byMain (Call.WindowHint Hint.OpenGLProfile HintValue.OpenGLCoreProfile),
       byMain (Call.WindowHint Hint.OpenGLForwardCompatible HintValue.True),
       byMain (Call.CreateWindow 800 600 "Learn OpenGL :: Window"),
       byMain Call.MakeContextCurrent,
       byMain Call.SetFramebufferSizeCallback,
       byMain Call.glInit] := by
    simp [bootstrap, Block.andThen, hc, windowWidth, windowHeight, windowTitle]
  have hbp : (bootstrap env).panic = none := by rw [hboot]
  unfold setup
  cases hp : (buildProgram env).panic with
  | some p =>
    refine ⟨r1, ?_⟩
    simp [Block.andThen, hbp, hp, hbl, hbuild]
  | none =>
    refine ⟨r1 ++ (setupGeometry env).log, ?_⟩
    simp [Block.andThen, hbp, hp, hbl, hbuild]

theorem andThen_panic {a b : Block} {p : Panic} (h : (a.andThen b).panic = some p) :
    a.panic = some p ∨ b.panic = some p := by
  unfold Block.andThen at h
  cases ha : a.panic with
  | some q =>
    rw [ha] at h
    exact Or.inl h
  | none =>
    rw [ha] at h
    exact Or.inr h

theorem diagnose_panic_not_error (stage : Stage) (handle : Nat) (n : Int) (t : List Nat)
    (e : Error) : (diagnose stage handle n t).panic ≠ some (Panic.error e) := by
  unfold diagnose logBuffer stringsRepeat glStr
  dsimp only
  split
  · rename_i p hp
    split at hp
    · cases hp
      simp
    · cases hp
  · rename_i log hl
    split
    · rename_i q hq
      split at hq
      · cases hq
      · cases hq
        simp
    · simp

theorem checkStatus_panic_not_error (stage : Stage) (handle : Nat) (pname : GLenum)
    (st n : Int) (t : List Nat) (e : Error) :
    (checkStatus stage handle pname st n t).panic ≠ some (Panic.error e) := by
  intro h
  unfold checkStatus at h
  rcases andThen_panic h with h | h
  · simp at h
  · split at h
    · exact diagnose_panic_not_error _ _ _ _ _ h
    · simp at h

theorem buildProgram_panic_not_error (env : Env) (e : Error) :
    (buildProgram env).panic ≠ some (Panic.error e) := by
  intro h
  unfold buildProgram at h
  rcases andThen_panic h with h | h
  · simp [compileStage] at h
  rcases andThen_panic h with h | h
  · exact checkStatus_panic_not_error _ _ _ _ _ _ _ h
  rcases andThen_panic h with h | h
  · simp [compileStage] at h
  rcases andThen_panic h with h | h
  · exact checkStatus_panic_not_error _ _ _ _ _ _ _ h
  rcases andThen_panic h with h | h
  · simp at h
  rcases andThen_panic h with h | h
  · exact checkStatus_panic_not_error _ _ _ _ _ _ _ h
  · simp at h

theorem setup_panic_not_error (env : Env) (hc : env.createWindowErr = none)
    (hg : env.glInitErr = none) (e : Error) : (setup env).panic ≠ some (Panic.error e) := by
  intro h
  unfold setup at h
  rcases andThen_panic h with h | h
  · simp [bootstrap, Block.andThen, hc, hg] at h
  rcases andThen_panic h with h | h
  · exact buildProgram_panic_not_error env e h
  · simp [setupGeometry] at h

/-- C8: a failed `glfw.Init` makes `main` panic with that error after the
`Init` call alone (nothing deferred, no window created); a failed
`CreateWindow` makes it panic with that error right after the `CreateWindow`
call, only the deferred `Terminate` following (the context is not made
current, `gl.Init` is not called); a failed `gl.Init` makes it panic with
that error right after the `gl.Init` call, only the deferred `Terminate`
following (no shader, buffer or draw call).  Each of the three calls occurs
once.  When all three succeed `main` goes on to create the vertex shader, and
it never panics with a library error. -/
theorem bootstrap_failures_abort (env : Env) :
    (∀ e, env.initErr = some e →
      main env = ⟨[byMain Call.glfwInit], Outcome.panicked (Panic.error e)⟩)
    ∧ (∀ e, env.initErr = none → env.createWindowErr = some e →
      main env =
        ⟨[byMain Call.glfwInit,
          byMain (Call.WindowHint Hint.ContextVersionMajor (HintValue.num 3)),
          byMain (Call.WindowHint Hint.ContextVersionMinor (HintValue.num 3)),
          byMain (Call.WindowHint Hint.OpenGLProfile HintValue.OpenGLCoreProfile),
          byMain (Call.WindowHint Hint.OpenGLForwardCompatible HintValue.True),
          byMain (Call.CreateWindow 800 600 "Learn OpenGL :: Window"),
          byMain Call.Terminate],
         Outcome.panicked (Panic.error e)⟩)
    ∧ (∀ e, env.initErr = none → env.createWindowErr = none → env.glInitErr = some e →
      main env =
        ⟨[byMain Call.glfwInit,
          byMain (Call.WindowHint Hint.ContextVersionMajor (HintValue.num 3)),
          byMain (Call.WindowHint Hint.ContextVersionMinor (HintValue.num 3)),
          byMain (Call.WindowHint Hint.OpenGLProfile HintValue.OpenGLCoreProfile),
          byMain (Call.WindowHint Hint.OpenGLForwardCompatible HintValue.True),
          byMain (Call.CreateWindow 800 600 "Learn OpenGL :: Window"),
          byMain Call.MakeContextCurrent,
          byMain Call.SetFramebufferSizeCallback,
          byMain Call.glInit,
          byMain Call.Terminate],
         Outcome.panicked (Panic.error e)⟩)
    ∧ (env.initErr = none → env.createWindowErr = none → env.glInitErr = none →
      (bootstrap env).panic = none
      ∧ (∃ rest, (main env).log =
        [byMain Call.glfwInit,
         byMain (Call.WindowHint Hint.ContextVersionMajor (HintValue.num 3)),
         byMain (Call.WindowHint Hint.ContextVersionMinor (HintValue.num 3)),
         byMain (Call.WindowHint Hint.OpenGLProfile HintValue.OpenGLCoreProfile),
         byMain (Call.WindowHint Hint.OpenGLForwardCompatible HintValue.True),
         byMain (Call.CreateWindow 800 600 "Learn OpenGL :: Window"),
         byMain Call.MakeContextCurrent,
         byMain Call.SetFramebufferSizeCallback,
         byMain Call.glInit,
         byMain (Call.CreateShader GLenum.VERTEX_SHADER)] ++ rest)
      ∧ (∀ e, (main env).outcome ≠ Outcome.panicked (Panic.error e))) := by
  refine ⟨?_, ?_, ?_, ?_⟩
  · intro e hi
    simp [main, hi]
  · intro e hi hc
    simp [main, hi, setup, bootstrap, Block.andThen, hc, windowWidth, windowHeight,
      windowTitle]
  · intro e hi hc hg
    simp [main, hi, setup, bootstrap, Block.andThen, hc, hg, windowWidth, windowHeight,
      windowTitle]
  · intro hi hc hg
    obtain ⟨rest, hrest⟩ := setup_log_starts env hc hg
    have hne := setup_panic_not_error env hc hg
    refine ⟨by simp [bootstrap, Block.andThen, hc, hg], ?_, ?_⟩
    · simp only [main, hi]
      cases hp : (setup env).panic with
      | some p => exact ⟨rest ++ [byMain Call.Terminate], by simp [hrest]⟩
      | none =>
        dsimp only
        split
        · exact ⟨_, by simp [hrest]; rfl⟩
        · exact ⟨_, by simp [hrest]; rfl⟩
    · intro e
      simp only [main, hi]
      cases hp : (setup env).panic with
      | some p =>
        dsimp only
        intro h
        apply hne e
        rw [hp]
        simpa using h
      | none =>
        dsimp only
        split <;> simp

/-- Witness for C8: `glfw.Init` fails with error 7. -/
theorem bootstrap_failures_abort_witness :
    main ⟨some ⟨7⟩, none, ⟨false, Action.Release⟩, none, 1, 2, 3, 1, 1, 2,
        1, 0, 1, 0, 1, 0, [], [], [], []⟩ =
      ⟨[byMain Call.glfwInit], Outcome.panicked (Panic.error ⟨7⟩)⟩ :=
  (bootstrap_failures_abort ⟨some ⟨7⟩, none, ⟨false, Action.Release⟩, none, 1, 2, 3, 1, 1, 2,
    1, 0, 1, 0, 1, 0, [], [], [], []⟩).1 ⟨7⟩ rfl

theorem setupGeometry_eq (env : Env) :
    setupGeometry env =
      ⟨[byMain (Call.GenVertexArrays 1),
        byMain (Call.BindVertexArray env.vao),
        byMain (Call.GenBuffers 1),
        byMain (Call.BindBuffer GLenum.ARRAY_BUFFER env.vbo),
        byMain (Call.BufferData GLenum.ARRAY_BUFFER 48 (Data.float32s vertices)
          GLenum.STATIC_DRAW),
        byMain (Call.VertexAttribPointer 0 3 GLenum.FLOAT false 12 0),
        byMain (Call.EnableVertexAttribArray 0),
        byMain (Call.GenBuffers 1),
        byMain (Call.BindBuffer GLenum.ELEMENT_ARRAY_BUFFER env.ebo),
        byMain (Call.BufferData GLenum.ELEMENT_ARRAY_BUFFER 24 (Data.int32s indices)
          GLenum.STATIC_DRAW)], none⟩ := by
  have hv : toInt ((vertices.length : Int) * 4) = 48 := by decide
  have hi : toInt ((indices.length : Int) * 4) = 24 := by decide
  have h12 : (3 * 4 : Int) = 12 := by decide
  simp only [setupGeometry, hv, hi, h12]

/-- C5: the vertex data handed to the upload call is exactly the 12 values
0.5, 0.5, 0, 0.5, -0.5, 0, -0.5, -0.5, 0, -0.5, 0.5, 0 in that order (each of
them exactly representable as `float32`): 4 vertices of 3 components, all
with z = 0, listed top-right, bottom-right, bottom-left, top-left; they are
the four corners (±0.5, ±0.5); consecutive corners share one coordinate and
differ by 1 in the other (an axis-aligned square of side 1); the coordinates
sum to zero (centroid at the origin). -/
theorem vertices_unit_quad (env : Env) :
    vertices = [0.5, 0.5, 0, 0.5, -0.5, 0, -0.5, -0.5, 0, -0.5, 0.5, 0]
    ∧ vertices.length = 4 * 3
    ∧ byMain (Call.BufferData GLenum.ARRAY_BUFFER 48 (Data.float32s vertices)
        GLenum.STATIC_DRAW) ∈ (setupGeometry env).log
    ∧ (∀ v ∈ vertices, isFloat32 v)
    ∧ vertexAt 0 = (1 / 2, 1 / 2, 0)
    ∧ vertexAt 1 = (1 / 2, -1 / 2, 0)
    ∧ vertexAt 2 = (-1 / 2, -1 / 2, 0)
    ∧ vertexAt 3 = (-1 / 2, 1 / 2, 0)
    ∧ (∀ i, i < 4 → (vertexAt i).2.2 = 0 ∧ |(vertexAt i).1| = 1 / 2 ∧ |(vertexAt i).2.1| = 1 / 2)
    ∧ ((vertexAt 0).1 = (vertexAt 1).1 ∧ (vertexAt 0).2.1 - (vertexAt 1).2.1 = 1)
    ∧ ((vertexAt 1).2.1 = (vertexAt 2).2.1 ∧ (vertexAt 1).1 - (vertexAt 2).1 = 1)
    ∧ ((vertexAt 2).1 = (vertexAt 3).1 ∧ (vertexAt 3).2.1 - (vertexAt 2).2.1 = 1)
    ∧ ((vertexAt 3).2.1 = (vertexAt 0).2.1 ∧ (vertexAt 0).1 - (vertexAt 3).1 = 1)
    ∧ ((vertexAt 0).1 + (vertexAt 1).1 + (vertexAt 2).1 + (vertexAt 3).1) / 4 = 0
    ∧ ((vertexAt 0).2.1 + (vertexAt 1).2.1 + (vertexAt 2).2.1 + (vertexAt 3).2.1) / 4 = 0 := by
  have h0 : vertexAt 0 = (1 / 2, 1 / 2, 0) := by
    simp [vertexAt, vertices]; norm_num
  have h1 : vertexAt 1 = (1 / 2, -1 / 2, 0) := by
    simp [vertexAt, vertices]; norm_num
  have h2 : vertexAt 2 = (-1 / 2, -1 / 2, 0) := by
    simp [vertexAt, vertices]; norm_num
  have h3 : vertexAt 3 = (-1 / 2, 1 / 2, 0) := by
    simp [vertexAt, vertices]; norm_num
  have hhalf : isFloat32 0.5 := ⟨1, -1, by norm_num, by norm_num, by norm_num, by norm_num⟩
  have hneg : isFloat32 (-0.5) := ⟨-1, -1, by norm_num, by norm_num, by norm_num, by norm_num⟩
  have hzero : isFloat32 0.0 := ⟨0, 0, by norm_num, by norm_num, by norm_num, by norm_num⟩
  refine ⟨by norm_num [vertices], by simp [vertices], by simp [setupGeometry_eq], ?_,
    h0, h1, h2, h3, ?_, ?_, ?_, ?_, ?_, ?_, ?_⟩
  · intro v hv
    simp only [vertices, List.mem_cons, List.mem_singleton, List.not_mem_nil, or_false] at hv
    rcases hv with h | h | h | h | h | h | h | h | h | h | h | h <;> subst h <;>
      first | exact hhalf | exact hneg | exact hzero
  · intro i hi
    interval_cases i
    · rw [h0]; norm_num [abs_of_pos]
    · rw [h1]; norm_num [abs_of_pos]
    · rw [h2]; norm_num [abs_of_pos]
    · rw [h3]; norm_num [abs_of_pos]
  all_goals
    simp only [h0, h1, h2, h3]
    norm_num

/-- C6: the index data handed to the upload call is exactly 0, 1, 3, 1, 2, 3:
6 indices read as the two triangles (0, 1, 3) and (1, 2, 3), which together
use the vertices 0, 1, 2, 3 and have exactly the vertices 1 and 3 in common;
vertices 1 and 3 differ in both coordinates (opposite corners of the quad,
its diagonal); the upload size `len(indices)*4` is 24 bytes, which is 6
indices of 4 bytes. -/
theorem indices_two_triangles (env : Env) :
    indices = [0, 1, 3, 1, 2, 3]
    ∧ indices.length = 6
    ∧ triangleAt 0 = (0, 1, 3)
    ∧ triangleAt 1 = (1, 2, 3)
    ∧ indices.toFinset = {0, 1, 2, 3}
    ∧ (indices.take 3).toFinset ∩ (indices.drop 3).toFinset = {1, 3}
    ∧ ((vertexAt 1).1 ≠ (vertexAt 3).1 ∧ (vertexAt 1).2.1 ≠ (vertexAt 3).2.1)
    ∧ toInt ((indices.length : Int) * 4) = 24
    ∧ (indices.length : Int) * bytesPerElement = 24
    ∧ byMain (Call.BufferData GLenum.ELEMENT_ARRAY_BUFFER 24 (Data.int32s indices)
        GLenum.STATIC_DRAW) ∈ (setupGeometry env).log := by
  refine ⟨rfl, rfl, rfl, rfl, by decide, by decide, ?_, by decide, by decide,
    by simp [setupGeometry_eq]⟩
  simp [vertexAt, vertices]
  norm_num

/-- C7: the one vertex attribute set up by `main` is slot 0 with 3 `float32`
components, not normalised, stride 12 bytes, offset 0, and slot 0 is the one
enabled; the stride is 3 components of 4 bytes; the vertex upload size
`len(vertices)*4` is 48 bytes, which is 4 strides, so the buffer holds 4
whole vertices with no padding between them and no bytes after them. -/
theorem vertex_attribute_tightly_packed (env : Env) :
    setupGeometry env =
      ⟨[byMain (Call.GenVertexArrays 1),
        byMain (Call.BindVertexArray env.vao),
        byMain (Call.GenBuffers 1),
        byMain (Call.BindBuffer GLenum.ARRAY_BUFFER env.vbo),
        byMain (Call.BufferData GLenum.ARRAY_BUFFER 48 (Data.float32s vertices)
          GLenum.STATIC_DRAW),
        byMain (Call.VertexAttribPointer 0 3 GLenum.FLOAT false 12 0),
        byMain (Call.EnableVertexAttribArray 0),
        byMain (Call.GenBuffers 1),
        byMain (Call.BindBuffer GLenum.ELEMENT_ARRAY_BUFFER env.ebo),
        byMain (Call.BufferData GLenum.ELEMENT_ARRAY_BUFFER 24 (Data.int32s indices)
          GLenum.STATIC_DRAW)], none⟩
    ∧ (12 : Int) = 3 * bytesPerElement
    ∧ toInt ((vertices.length : Int) * 4) = 48
    ∧ (vertices.length : Int) * bytesPerElement = 48
    ∧ (48 : Int) = 4 * 12
    ∧ (48 : Int) % 12 = 0
    ∧ vertices.length = 4 * 3 := by
  refine ⟨setupGeometry_eq env, by decide, by decide, by decide, by decide, by decide,
    by simp [vertices]⟩

theorem everyCall_append {P : Call → Prop} {a b : List Entry} (ha : EveryCall P a)
    (hb : EveryCall P b) : EveryCall P (a ++ b) := by
  intro e he
  rcases List.mem_append.mp he with h | h
  · exact ha e h
  · exact hb e h

theorem everyCall_andThen {P : Call → Prop} {a b : Block} (ha : EveryCall P a.log)
    (hb : EveryCall P b.log) : EveryCall P (a.andThen b).log := by
  unfold Block.andThen
  cases h : a.panic with
  | some p => simpa using ha
  | none => simpa using everyCall_append ha hb

theorem everyCall_mono {P Q : Call → Prop} {log : List Entry} (h : ∀ c, P c → Q c)
    (hl : EveryCall P log) : EveryCall Q log :=
  fun e he => h e.call (hl e he)

theorem notDraw_diagnose (stage : Stage) (handle : Nat) (n : Int) (t : List Nat) :
    EveryCall notDraw (diagnose stage handle n t).log := by
  unfold diagnose
  dsimp only
  split
  · cases stage <;> simp [EveryCall, byMain, Stage.getiv, notDraw]
  · split
    · cases stage <;> simp [EveryCall, byMain, Stage.getiv, notDraw]
    · cases stage <;> simp [EveryCall, byMain, Stage.getiv, Stage.getInfoLog, notDraw]

theorem notDraw_checkStatus (stage : Stage) (handle : Nat) (pname : GLenum) (st n : Int)
    (t : List Nat) : EveryCall notDraw (checkStatus stage handle pname st n t).log := by
  unfold checkStatus
  refine everyCall_andThen ?_ ?_
  · cases stage <;> simp [EveryCall, byMain, Stage.getiv, notDraw]
  · split
    · exact notDraw_diagnose _ _ _ _
    · simp [EveryCall]

theorem notDraw_setup (env : Env) : EveryCall notDraw (setup env).log := by
  unfold setup bootstrap buildProgram setupGeometry compileStage
  repeat first
    | exact notDraw_checkStatus _ _ _ _ _ _
    | apply everyCall_andThen
    | simp [EveryCall, byMain, notDraw]

theorem onlyFrameDraw_of_notDraw (c : Call) (h : notDraw c) : onlyFrameDraw c := by
  cases c <;> simp_all [notDraw, onlyFrameDraw]

theorem onlyFrameDraw_iteration (program vao : Nat) (w : Window) (events : List Event) :
    EveryCall onlyFrameDraw (iteration program vao w events).2 := by
  simp only [iteration, frameCalls, pollEvents_log]
  refine everyCall_append (everyCall_append (everyCall_append (everyCall_append ?_ ?_) ?_) ?_) ?_
  · simp [EveryCall, byMain, onlyFrameDraw]
  · unfold processInput
    split <;> simp [EveryCall, onlyFrameDraw]
  · simp [EveryCall, byMain, onlyFrameDraw]
  · simp [EveryCall, byMain, onlyFrameDraw]
  · intro e he
    simp only [callbackLog, List.mem_flatMap] at he
    obtain ⟨ev, -, hev⟩ := he
    cases ev <;> simp [framebufferSizeCallback] at hev
    subst hev
    simp [onlyFrameDraw]

theorem onlyFrameDraw_renderLoop (program vao : Nat) (w : Window)
    (frames : List (List Event)) :
    EveryCall onlyFrameDraw (renderLoop program vao w frames).log := by
  induction frames generalizing w with
  | nil => simp [renderLoop, EveryCall, byMain, onlyFrameDraw]
  | cons events rest ih =>
    unfold renderLoop
    split
    · simp [EveryCall, byMain, onlyFrameDraw]
    · refine everyCall_append (everyCall_append ?_ (onlyFrameDraw_iteration _ _ _ _)) (ih _)
      simp [EveryCall, byMain, onlyFrameDraw]

theorem onlyFrameDraw_main (env : Env) : EveryCall onlyFrameDraw (main env).log := by
  have hs : EveryCall onlyFrameDraw (setup env).log :=
    everyCall_mono onlyFrameDraw_of_notDraw (notDraw_setup env)
  have hr := onlyFrameDraw_renderLoop env.program env.vao env.window env.frames
  have h0 : EveryCall onlyFrameDraw [byMain Call.glfwInit] := by
    simp [EveryCall, byMain, onlyFrameDraw]
  unfold main
  split
  · exact h0
  · dsimp only
    split
    · refine everyCall_append (everyCall_append h0 hs) ?_
      simp [EveryCall, byMain, onlyFrameDraw]
    · split
      · refine everyCall_append (everyCall_append (everyCall_append h0 hs) hr) ?_
        simp [EveryCall, byMain, onlyFrameDraw]
      · exact everyCall_append (everyCall_append h0 hs) hr

theorem andThen_ok {a b : Block} (h : (a.andThen b).panic = none) :
    a.panic = none ∧ b.panic = none ∧ (a.andThen b).log = a.log ++ b.log := by
  unfold Block.andThen at h ⊢
  cases ha : a.panic with
  | some p => simp [ha] at h
  | none =>
    rw [ha] at h
    exact ⟨rfl, h, rfl⟩

theorem setup_ok_log (env : Env) (h : (setup env).panic = none) :
    (setup env).log =
      (bootstrap env).log ++ (buildProgram env).log ++ (setupGeometry env).log := by
  unfold setup at h ⊢
  obtain ⟨-, h2, hl⟩ := andThen_ok h
  obtain ⟨-, -, hl2⟩ := andThen_ok h2
  rw [hl, hl2, List.append_assoc]

theorem draw_after_uploads (env : Env) (e : Entry) (he : e ∈ (main env).log)
    (hd : ¬ notDraw e.call) :
    ∃ pre post, (main env).log = pre ++ (setupGeometry env).log ++ post
      ∧ EveryCall notDraw pre ∧ e ∈ post := by
  have hns := notDraw_setup env
  unfold main at he ⊢
  cases hi : env.initErr with
  | some err =>
    simp only [hi, List.mem_singleton] at he
    subst he
    simp [byMain, notDraw] at hd
  | none =>
    simp only [hi] at he ⊢
    cases hp : (setup env).panic with
    | some p =>
      simp only [hp, List.mem_append, List.mem_singleton] at he
      rcases he with (h | h) | h
      · subst h
        simp [byMain, notDraw] at hd
      · exact absurd (hns e h) hd
      · subst h
        simp [byMain, notDraw] at hd
    | none =>
      have hl := setup_ok_log env hp
      have hpre : EveryCall notDraw
          ([byMain Call.glfwInit] ++ ((bootstrap env).log ++ (buildProgram env).log)) := by
        refine everyCall_append (by simp [EveryCall, byMain, notDraw]) ?_
        intro x hx
        apply hns x
        rw [hl]
        simp only [List.mem_append] at hx ⊢
        exact Or.inl hx
      cases hx : (renderLoop env.program env.vao env.window env.frames).exited with
      | true =>
        simp only [hp, hx, if_true] at he ⊢
        refine ⟨[byMain Call.glfwInit] ++ ((bootstrap env).log ++ (buildProgram env).log),
          (renderLoop env.program env.vao env.window env.frames).log ++
            [byMain (Call.DeleteBuffers 1 env.vbo),
             byMain (Call.DeleteVertexArrays 1 env.vao),
             byMain Call.Terminate], ?_, hpre, ?_⟩
        · rw [hl]
          simp only [List.append_assoc]
        · simp only [List.mem_append] at he
          rcases he with ((h | h) | h) | h
          · simp only [List.mem_singleton] at h
            subst h
            simp [byMain, notDraw] at hd
          · exact absurd (hns e h) hd
          · simp only [List.mem_append]
            exact Or.inl h
          · simp only [List.mem_append]
            exact Or.inr h
      | false =>
        simp only [hp, hx, Bool.false_eq_true, if_false] at he ⊢
        refine ⟨[byMain Call.glfwInit] ++ ((bootstrap env).log ++ (buildProgram env).log),
          (renderLoop env.program env.vao env.window env.frames).log, ?_, hpre, ?_⟩
        · rw [hl]
          simp only [List.append_assoc]
        · simp only [List.mem_append] at he
          rcases he with (h | h) | h
          · simp only [List.mem_singleton] at h
            subst h
            simp [byMain, notDraw] at hd
          · exact absurd (hns e h) hd
          · exact h

/-- C9: geometry setup uploads exactly the vertex data (48 bytes) to the
array buffer and exactly the index data (24 bytes) to the element buffer,
with one attribute layout of 3 components, stride 12, offset 0, so 4 = 48/12
= `len(vertices)/3` vertices are uploaded.  Every uploaded index is at least
0 and less than 4; read as `uint32` it is the same number, and the 12 bytes
of the vertex it names lie inside the 48 uploaded bytes.  In every run of
`main` each indexed draw is `DrawElements(TRIANGLES, 6, UNSIGNED_INT, 0)`, it
reads bytes 0 to 24 of the 24 uploaded index bytes (6 indices of the 6
uploaded), and it comes after the two uploads with no draw before them;
every frame contains that draw. -/
theorem indices_in_bounds (env : Env) :
    uploadsTo GLenum.ARRAY_BUFFER (setupGeometry env).log = [(48, Data.float32s vertices)]
    ∧ uploadsTo GLenum.ELEMENT_ARRAY_BUFFER (setupGeometry env).log =
        [(24, Data.int32s indices)]
    ∧ attribLayouts (setupGeometry env).log = [(0, 3, 12, 0)]
    ∧ (4 : Int) = (vertices.length : Int) / 3
    ∧ (4 : Int) = 48 / 12
    ∧ (∀ i ∈ indices, 0 ≤ i ∧ i < 4 ∧ asUint32 i = i ∧ toInt32 i = i
        ∧ 0 ≤ 0 + 12 * asUint32 i ∧ 0 + 12 * asUint32 i + 3 * bytesPerElement ≤ 48
        ∧ 3 * i.toNat + 2 < vertices.length)
    ∧ EveryCall onlyFrameDraw (main env).log
    ∧ EveryCall (drawWithin 24) (main env).log
    ∧ (0 : Int) + 6 ≤ indices.length
    ∧ (∀ e ∈ (main env).log, ¬ notDraw e.call →
        ∃ pre post, (main env).log = pre ++ (setupGeometry env).log ++ post
          ∧ EveryCall notDraw pre ∧ e ∈ post)
    ∧ (∀ (program vao : Nat) (w : Window) (events : List Event),
        byMain (Call.DrawElements GLenum.TRIANGLES 6 GLenum.UNSIGNED_INT 0)
          ∈ (iteration program vao w events).2) := by
  refine ⟨by simp [setupGeometry_eq, uploadsTo, byMain],
    by simp [setupGeometry_eq, uploadsTo, byMain],
    by simp [setupGeometry_eq, attribLayouts, byMain],
    by simp [vertices], by decide, ?_, onlyFrameDraw_main env, ?_, by decide,
    fun e he hd => draw_after_uploads env e he hd, ?_⟩
  · intro i hi
    simp only [indices, List.mem_cons, List.mem_singleton, List.not_mem_nil, or_false] at hi
    rcases hi with h | h | h | h | h | h <;> subst h <;>
      refine ⟨by decide, by decide, by decide, by decide, by decide, by decide,
        by simp [vertices]⟩
  · refine everyCall_mono ?_ (onlyFrameDraw_main env)
    intro c hc
    cases c <;> simp_all [onlyFrameDraw, drawWithin, bytesPerElement]
  · intro program vao w events
    simp [iteration, frameCalls]

end Triangles
